import Mathlib

/-!
# EPIC scoring core: a shallow embedding

This file embeds the EPIC scoring and recommendation-derivation engine of the
gtm-alpha-secure repository in Lean 4 and proves/refutes the frozen claims
about it.  Each definition mirrors one JavaScript function from the source:

* `analyzeEPICFramework`        — netlify/functions/analyze.js
* `generateStrategicAnalysis`   — netlify/functions/analyze.js (classifier part)
* `generateActionableRecommendations` — netlify/functions/analyze.js
* `generateGTMRoadmap`          — netlify/functions/analyze.js
* `calculateDynamicEPICScores`, `getPrimaryStrategy`, `getRecommendations`,
  `generateQuarterlyMilestones` — netlify/functions/epic-scores.js
* `analyzeEPICScores`           — the MCP consultant object bundled with
  netlify/functions/epic-scores.js (mcp.js section)
* `mapPrioritiesToEPIC`, `calculateCapacity`, `getEPICRoadmapTemplate`,
  `adjustForCapacity`, `fitToTimeline` — roadmap.js (src/unnamed/part_007)

JavaScript numbers are modelled as `ℤ` (the source only ever holds integers
after its `Math.round` calls, and every other operation is integral).  The
fractional stage weights are stored multiplied by 100 and the industry
modifiers multiplied by 10, both exact, so that the source's
`Math.round(weight * 100 * modifier)` — `⌊weight·100·modifier + 1/2⌋`, as
JavaScript `Math.round` rounds half up — is the exact integer
`(w100 * m10 + 5) / 10` (integer floor division; all operands are
nonnegative).  `Math.min`/`Math.max` are `min`/`max`.
Strings are Lean `String`s; `String.prototype.includes` is substring search on
the character list; `toLowerCase` is a character-wise `Char.toLower` map.
JavaScript object lookups over the fixed literal tables are embedded as
key-equality chains (the tables have pairwise distinct keys).  Fields that a
handler may leave `undefined` are `Option`s; `x || default` on strings is
embedded with its JavaScript falsiness (the empty string also selects the
default).  `team_size`/`monthly_budget` enter the dynamic scorer through
`parseInt`, which always yields an integer (or the hard default); the embedded
record therefore carries the parsed integer, `none` when the raw field is
absent/falsy.

One JavaScript subtlety is modelled explicitly: bracket reads on the object
literals used as lookup tables consult the prototype chain, so a key equal to
an `Object.prototype` property name (`"toString"`, `"constructor"`,
`"__proto__"`, …) finds a truthy inherited built-in instead of `undefined`.
The `... || default` fallbacks and `if (table[key])` guards are then bypassed,
the undefined fields of the inherited value turn every score into `NaN`
(which `Math.max(0, Math.min(100, NaN))` does not remove), and in roadmap.js
`mapping.epic.forEach` throws a `TypeError`.  The integer-valued functions
below are the *number path* — the computation taken when no lookup hits the
prototype chain; the `…JS` wrappers (`analyzeEPICFrameworkJS`,
`calculateDynamicEPICScoresJS`, `mapPrioritiesToEPICJS`) add the
prototype-chain path, with `none` standing for the all-`NaN` score object
(respectively the thrown `TypeError`).
-/

namespace GTMAlpha

/-- The four EPIC letters, in the enumeration order `E, P, I, C` used by every
`Object.keys` traversal in the source. -/
inductive Letter
  | E
  | P
  | I
  | C
deriving DecidableEq, Repr

/-- A vector indexed by the four EPIC letters: integer scores, 100×-scaled
stage-weight rows and 10×-scaled industry-modifier rows. -/
structure Vec4 (α : Type) where
  E : α
  P : α
  I : α
  C : α
deriving DecidableEq, Repr

/-- Component of a `Vec4` at a letter. -/
def Vec4.at {α : Type} (v : Vec4 α) : Letter → α
  | Letter.E => v.E
  | Letter.P => v.P
  | Letter.I => v.I
  | Letter.C => v.C

/-- Componentwise `≤` on score vectors. -/
def Vec4.le (s t : Vec4 ℤ) : Prop :=
  s.E ≤ t.E ∧ s.P ≤ t.P ∧ s.I ≤ t.I ∧ s.C ≤ t.C

/-- All four components lie in `[0, 100]`. -/
def Vec4.bounded (s : Vec4 ℤ) : Prop :=
  (0 ≤ s.E ∧ s.E ≤ 100) ∧ (0 ≤ s.P ∧ s.P ≤ 100) ∧
  (0 ≤ s.I ∧ s.I ≤ 100) ∧ (0 ≤ s.C ∧ s.C ≤ 100)

/-- `text.toLowerCase()` as a character list. -/
def lower (s : String) : List Char := s.data.map Char.toLower

/-- `text.includes(kw)` for an (already lower-case) keyword literal. -/
def includesStr (text : List Char) (kw : String) : Bool :=
  decide (kw.data <:+: text)

/-- `Math.round (x / 10)` for a nonnegative integer `x`: JavaScript rounds
half up, and `⌊x/10 + 1/2⌋ = ⌊(x + 5)/10⌋` exactly. -/
def jsRound10 (x : ℤ) : ℤ := (x + 5) / 10

/-- The property names of `Object.prototype` (including the Annex B
accessors): a bracket read `table[key]` on an object literal that misses
every own key still finds these, and each of the inherited values (built-in
functions, and `Object.prototype` itself for `"__proto__"`) is truthy. -/
def protoKeys : List String :=
  ["constructor", "hasOwnProperty", "isPrototypeOf", "propertyIsEnumerable",
   "toLocaleString", "toString", "valueOf", "__proto__", "__defineGetter__",
   "__defineSetter__", "__lookupGetter__", "__lookupSetter__"]

/-! ## analyze.js — `analyzeEPICFramework` -/

/-- Input fields of `analyzeEPICFramework` that the function actually reads
(`budget_range`/`current_team_size` are destructured but never used by it). -/
structure AnalyzeInput where
  business_stage : String
  industry : String
  gtm_challenge : String
deriving DecidableEq, Repr

/-- The `stageWeights` table keys (analyze.js). -/
def stageKeys : List String :=
  ["bootstrapped-idea", "bootstrapped-pmf", "bootstrapped-seed-equivalent",
   "bootstrapped-series-equivalent", "venture-seed", "venture-series-a",
   "venture-series-b", "growth", "scale", "enterprise"]

/-- `stageWeights[business_stage] || stageWeights['bootstrapped-pmf']`
(analyze.js) on the number path: per-letter fractional weights stored ×100
(`0.2 ↦ 20`, …), embedded as a key-equality chain over the own keys, ending
in the `bootstrapped-pmf` default that the source takes when the bracket
read yields `undefined`.  For `business_stage ∈ protoKeys` the source instead
finds a truthy inherited function, skips this fallback, and all scores become
`NaN` — that path is modelled in `analyzeEPICFrameworkJS`, not here. -/
def stageWeightsOf (s : String) : Vec4 ℤ :=
  if s = "bootstrapped-idea" then ⟨20, 30, 30, 20⟩
  else if s = "bootstrapped-pmf" then ⟨25, 35, 25, 15⟩
  else if s = "bootstrapped-seed-equivalent" then ⟨30, 30, 25, 15⟩
  else if s = "bootstrapped-series-equivalent" then ⟨35, 25, 25, 15⟩
  else if s = "venture-seed" then ⟨30, 35, 20, 15⟩
  else if s = "venture-series-a" then ⟨40, 25, 20, 15⟩
  else if s = "venture-series-b" then ⟨45, 20, 20, 15⟩
  else if s = "growth" then ⟨40, 30, 20, 10⟩
  else if s = "scale" then ⟨50, 20, 20, 10⟩
  else if s = "enterprise" then ⟨60, 15, 15, 10⟩
  else ⟨25, 35, 25, 15⟩

/-- The `industryModifiers` table keys (analyze.js). -/
def industryKeys : List String :=
  ["Technology", "SaaS", "E-commerce", "Healthcare", "Finance", "Education",
   "Manufacturing", "Consulting"]

/-- `industryModifiers[industry] || {E:1.0,P:1.0,I:1.0,C:1.0}` (analyze.js)
on the number path: per-letter multipliers stored ×10 (`1.2 ↦ 12`, …), with
the identity row as the fallback for a missing own key.  For
`industry ∈ protoKeys` the source finds a truthy inherited property, skips
the identity fallback and produces `NaN` scores — modelled in
`analyzeEPICFrameworkJS`. -/
def industryModOf (s : String) : Vec4 ℤ :=
  if s = "Technology" then ⟨12, 13, 11, 10⟩
  else if s = "SaaS" then ⟨11, 14, 12, 11⟩
  else if s = "E-commerce" then ⟨10, 12, 13, 12⟩
  else if s = "Healthcare" then ⟨13, 10, 11, 9⟩
  else if s = "Finance" then ⟨14, 10, 10, 8⟩
  else if s = "Education" then ⟨11, 11, 12, 13⟩
  else if s = "Manufacturing" then ⟨13, 9, 10, 8⟩
  else if s = "Consulting" then ⟨12, 8, 13, 14⟩
  else ⟨10, 10, 10, 10⟩

/-- The `challengeKeywords` table of analyze.js, in `Object.keys` order. -/
def challengeKeywords : List (String × Vec4 ℤ) :=
  [("lead generation", ⟨0, 5, 15, 5⟩),
   ("customer acquisition", ⟨5, 10, 10, 0⟩),
   ("enterprise sales", ⟨20, 0, 5, 0⟩),
   ("market positioning", ⟨10, 5, 10, 10⟩),
   ("product-led growth", ⟨0, 20, 0, 5⟩),
   ("sales cycle", ⟨15, 5, 5, 0⟩),
   ("competitive", ⟨10, 5, 10, 5⟩),
   ("pricing", ⟨5, 15, 5, 0⟩),
   ("messaging", ⟨5, 0, 15, 5⟩),
   ("brand awareness", ⟨5, 0, 15, 10⟩),
   ("partnership", ⟨20, 0, 0, 5⟩),
   ("community", ⟨0, 0, 5, 20⟩),
   ("retention", ⟨0, 15, 5, 10⟩),
   ("expansion", ⟨10, 10, 5, 0⟩)]

/-- Base scores `Math.round(baseWeights.X * 100 * industryMod.X)` per letter:
with `w` the 100×-scaled weights and `m` the 10×-scaled modifiers this is
exactly `jsRound10 (w.X * m.X)`. -/
def epicBase (w m : Vec4 ℤ) : Vec4 ℤ :=
  ⟨jsRound10 (w.E * m.E), jsRound10 (w.P * m.P),
   jsRound10 (w.I * m.I), jsRound10 (w.C * m.C)⟩

/-- One loop iteration of the challenge-keyword pass: on a hit, every letter
gets `Math.min(100, score + adjustment)`. -/
def challengeStep (text : List Char) (s : Vec4 ℤ) (p : String × Vec4 ℤ) : Vec4 ℤ :=
  if includesStr text p.1 then
    ⟨min 100 (s.E + p.2.E), min 100 (s.P + p.2.P),
     min 100 (s.I + p.2.I), min 100 (s.C + p.2.C)⟩
  else s

/-- The `Object.keys(challengeKeywords).forEach` pass of analyze.js. -/
def applyChallengeAdjust (text : List Char) (s : Vec4 ℤ) : Vec4 ℤ :=
  challengeKeywords.foldl (challengeStep text) s

/-- `analyzeEPICFramework` (analyze.js lines 7–78), number path: stage
weights × industry modifiers, rounded, then the keyword pass. -/
def analyzeEPICFramework (inp : AnalyzeInput) : Vec4 ℤ :=
  applyChallengeAdjust (lower inp.gtm_challenge)
    (epicBase (stageWeightsOf inp.business_stage) (industryModOf inp.industry))

/-- `analyzeEPICFramework` with the prototype-chain path: if
`business_stage` or `industry` names an `Object.prototype` property, the
bracket read returns the truthy inherited value, the `||` fallback is
skipped, the missing `.E`/`.P`/`.I`/`.C` fields make every base score `NaN`,
and `Math.min(100, NaN + adj)` keeps them `NaN` — `none` stands for that
all-`NaN` score object.  Otherwise the number path applies. -/
def analyzeEPICFrameworkJS (inp : AnalyzeInput) : Option (Vec4 ℤ) :=
  if inp.business_stage ∈ protoKeys ∨ inp.industry ∈ protoKeys then none
  else some (analyzeEPICFramework inp)

/-! ## Focus classifier (analyze.js `generateStrategicAnalysis`) -/

/-- `Math.max(epicScores.E, epicScores.P, epicScores.I, epicScores.C)`. -/
def max4 (s : Vec4 ℤ) : ℤ := max s.E (max s.P (max s.I s.C))

/-- The primary-focus `if/else if` chain of `generateStrategicAnalysis`
(analyze.js lines 89–92), at letter level: E is tested first, then P, then I,
and C is the final `else`. -/
def primaryFocusLetter (s : Vec4 ℤ) : Letter :=
  if s.E = max4 s then Letter.E
  else if s.P = max4 s then Letter.P
  else if s.I = max4 s then Letter.I
  else Letter.C

/-- The focus names of analyze.js (used both by the primary `if` chain and by
the `secondaryMap` object). -/
def focusName : Letter → String
  | Letter.E => "Ecosystem & ABM-led Sales Motion"
  | Letter.P => "Product-Led Growth Acceleration"
  | Letter.I => "Inbound & Outbound Demand Generation"
  | Letter.C => "Community-Led Growth Strategy"

/-- `Object.entries(epicScores)` — insertion order `E, P, I, C`. -/
def entriesOf (s : Vec4 ℤ) : List (Letter × ℤ) :=
  [(Letter.E, s.E), (Letter.P, s.P), (Letter.I, s.I), (Letter.C, s.C)]

/-- `.sort((a, b) => b[1] - a[1])`: a stable descending sort by score
(ECMAScript `Array.prototype.sort` is stable), embedded as insertion sort
where an earlier entry stays in front of every later entry of `≤` score. -/
def sortedEntries (s : Vec4 ℤ) : List (Letter × ℤ) :=
  (entriesOf s).insertionSort (fun a b => b.2 ≤ a.2)

/-- Letters of the sorted entries. -/
def sortedLetters (s : Vec4 ℤ) : List Letter := (sortedEntries s).map Prod.fst

/-- `sortedScores[0][0]` — the default is never reached (the sorted list is a
permutation of the four entries, proved in `length_sortedLetters`). -/
def primarySorted (s : Vec4 ℤ) : Letter := (sortedLetters s).getD 0 Letter.P

/-- `sortedScores[1][0]` — the secondary-focus letter of
`generateStrategicAnalysis`; default again unreachable. -/
def secondarySorted (s : Vec4 ℤ) : Letter := (sortedLetters s).getD 1 Letter.P

/-- Modelled from the spec, for comparison with the code's classifiers: the
tie-break as amended, i.e. the first letter in the enumeration order
`E, P, I, C` attaining the maximum score. -/
def firstMaxLetter (s : Vec4 ℤ) : Letter :=
  if s.P ≤ s.E ∧ s.I ≤ s.E ∧ s.C ≤ s.E then Letter.E
  else if s.I ≤ s.P ∧ s.C ≤ s.P then Letter.P
  else if s.C ≤ s.I then Letter.I
  else Letter.C

/-! ## The MCP consultant scorer (`analyzeEPICScores`, epic-scores.js
mcp.js section lines 375–409) -/

/-- The fixed `epicFramework` keyword lists. -/
def epicKeywords : Letter → List String
  | Letter.E => ["partners", "ecosystem", "abm", "enterprise", "integration",
                 "channel", "alliances", "b2b"]
  | Letter.P => ["product-led", "plg", "user experience", "onboarding",
                 "activation", "self-serve", "viral", "freemium"]
  | Letter.I => ["content", "demand", "marketing", "channels", "campaigns",
                 "seo", "paid", "outbound", "inbound"]
  | Letter.C => ["community", "advocacy", "engagement", "loyalty", "referrals",
                 "events", "network", "social"]

/-- `keywords.forEach(k => { if (text.includes(k)) scores[c] += 1; })`. -/
def keywordCount (text : List Char) (kws : List String) : ℤ :=
  kws.foldl (fun n kw => if includesStr text kw then n + 1 else n) 0

/-- `Object.keys(scores).find(key => scores[key] === maxScore) || 'P'`: the
first letter in `E, P, I, C` order whose score equals the maximum (the `'P'`
default is dead code, since the maximum is always attained). -/
def findPrimary (s : Vec4 ℤ) : Letter :=
  (([Letter.E, Letter.P, Letter.I, Letter.C]).find?
    (fun k => decide (Vec4.at s k = max4 s))).getD Letter.P

/-- Result of `analyzeEPICScores`. -/
structure EpicAnalysis where
  scores : Vec4 ℤ
  primaryFocus : Letter
deriving DecidableEq, Repr

/-- `analyzeEPICScores(challenge, companyDescription, industry, businessStage)`:
keyword counting over the lower-cased space-join of challenge, description and
industry, then the stage and enterprise/consumer bonuses, then the
`find`-based primary focus. -/
def analyzeEPICScores (challenge companyDescription industry businessStage :
    String) : EpicAnalysis :=
  let text := lower (challenge ++ " " ++ companyDescription ++ " " ++ industry)
  let bs := businessStage.data
  let base : Vec4 ℤ :=
    ⟨keywordCount text (epicKeywords Letter.E),
     keywordCount text (epicKeywords Letter.P),
     keywordCount text (epicKeywords Letter.I),
     keywordCount text (epicKeywords Letter.C)⟩
  let s1 := if bs ≠ [] ∧ (includesStr bs "pre-seed" ∨ includesStr bs "seed")
    then { base with P := base.P + 1 } else base
  let s2 := if bs ≠ [] ∧ includesStr bs "series"
    then { s1 with E := s1.E + 1 } else s1
  let s3 := if includesStr text "enterprise" ∨ includesStr text "b2b"
    then { s2 with E := s2.E + 1 } else s2
  let s4 := if includesStr text "consumer" ∨ includesStr text "b2c"
    then { s3 with P := s3.P + 1 } else s3
  ⟨s4, findPrimary s4⟩

/-! ## epic-scores.js — `calculateDynamicEPICScores` and friends -/

/-- The request fields read by `calculateDynamicEPICScores`.  `team_size` and
`monthly_budget` carry the integer produced by the source's
`parseInt(...) || default` parsing (`parseInt` of digits, `NaN` replaced by
the default), and are `none` when the raw field is absent or falsy, in which
case the source skips the corresponding adjustment block entirely. -/
structure DynInput where
  industry : Option String
  business_stage : Option String
  team_size : Option ℤ
  monthly_budget : Option ℤ
deriving DecidableEq, Repr

/-- JavaScript `x || default` for an optional string field (the empty string
is falsy and also selects the default). -/
def jsOrStr (o : Option String) (d : String) : String :=
  match o with
  | none => d
  | some s => if s = "" then d else s

/-- The `industryAdjustments` table of epic-scores.js, own keys only: `none`
for an absent own key, where `if (industryAdjustments[industry])` is falsy
and the source skips the adjustment.  For `industry ∈ protoKeys` the guard is
instead truthy (inherited property) and the block runs with undefined fields,
turning the scores `NaN` — modelled in `calculateDynamicEPICScoresJS`. -/
def industryAdjOf (s : String) : Option (Vec4 ℤ) :=
  if s = "SaaS" then some ⟨10, 20, 5, 5⟩
  else if s = "Finance" then some ⟨20, -10, 15, -5⟩
  else if s = "Healthcare" then some ⟨15, -5, 10, 0⟩
  else if s = "E-commerce" then some ⟨5, 10, 15, 10⟩
  else if s = "Education" then some ⟨10, 5, 5, 15⟩
  else if s = "Marketplace" then some ⟨20, 5, 10, 15⟩
  else if s = "Consumer" then some ⟨0, 15, 20, 20⟩
  else if s = "B2B" then some ⟨15, 5, 10, 5⟩
  else if s = "Enterprise" then some ⟨25, -5, 15, 0⟩
  else if s = "Technology" then some ⟨10, 15, 5, 10⟩
  else if s = "Retail" then some ⟨5, 10, 20, 15⟩
  else if s = "General" then some ⟨5, 5, 5, 5⟩
  else none

/-- The `stageAdjustments` table of epic-scores.js, own keys only; as with
`industryAdjOf`, a stage in `protoKeys` makes the source's guard truthy and
poisons the scores with `NaN` (see `calculateDynamicEPICScoresJS`). -/
def stageAdjOf (s : String) : Option (Vec4 ℤ) :=
  if s = "Pre-launch" then some ⟨-10, 5, -15, 10⟩
  else if s = "MVP" then some ⟨-5, 10, -10, 15⟩
  else if s = "Early Traction" then some ⟨0, 15, 0, 10⟩
  else if s = "Growth" then some ⟨10, 10, 15, 5⟩
  else if s = "Scale" then some ⟨15, 5, 20, 0⟩
  else if s = "Mature" then some ⟨20, 0, 15, -5⟩
  else if s = "Enterprise" then some ⟨25, -5, 15, -10⟩
  else none

/-- Componentwise sum. -/
def Vec4.add (s t : Vec4 ℤ) : Vec4 ℤ := ⟨s.E + t.E, s.P + t.P, s.I + t.I, s.C + t.C⟩

/-- The team-size `if/else if` ladder of epic-scores.js. -/
def teamSizeAdjust (sz : ℤ) (s : Vec4 ℤ) : Vec4 ℤ :=
  if sz ≤ 5 then { s with P := s.P + 10, C := s.C + 5, E := s.E - 5 }
  else if sz ≤ 20 then { s with P := s.P + 5, I := s.I + 5 }
  else if sz ≤ 100 then { s with E := s.E + 5, I := s.I + 10 }
  else if sz ≤ 500 then { s with E := s.E + 10, I := s.I + 15, P := s.P - 5 }
  else { s with E := s.E + 15, I := s.I + 10, P := s.P - 10 }

/-- The monthly-budget `if/else if` ladder of epic-scores.js. -/
def budgetAdjust (b : ℤ) (s : Vec4 ℤ) : Vec4 ℤ :=
  if b < 1000 then { s with P := s.P + 10, C := s.C + 10, I := s.I - 10 }
  else if b < 5000 then { s with P := s.P + 5, C := s.C + 5 }
  else if b < 20000 then { s with I := s.I + 10, P := s.P + 5 }
  else if b < 50000 then { s with E := s.E + 10, I := s.I + 15 }
  else { s with E := s.E + 20, I := s.I + 20, P := s.P - 5 }

/-- `scores[key] = Math.max(0, Math.min(100, scores[key]))` over the four
keys (epic-scores.js lines 207–212). -/
def clampScores (s : Vec4 ℤ) : Vec4 ℤ :=
  ⟨max 0 (min 100 s.E), max 0 (min 100 s.P),
   max 0 (min 100 s.I), max 0 (min 100 s.C)⟩

/-- The industry then stage adjustment blocks of `calculateDynamicEPICScores`
(`if (industryAdjustments[industry]) { ... }`, `if (stageAdjustments[stage])
{ ... }`): a missing table row leaves the scores untouched. -/
def dynIndustryStage (d : DynInput) (s : Vec4 ℤ) : Vec4 ℤ :=
  let s1 := match industryAdjOf (jsOrStr d.industry "General") with
    | some a => Vec4.add s a
    | none => s
  match stageAdjOf (jsOrStr d.business_stage "Growth") with
  | some a => Vec4.add s1 a
  | none => s1

/-- The team-size then budget adjustment blocks of
`calculateDynamicEPICScores` (`if (data.team_size) { ... }`,
`if (data.monthly_budget) { ... }`): an absent/falsy field skips the block. -/
def dynTeamBudget (d : DynInput) (s : Vec4 ℤ) : Vec4 ℤ :=
  let s3 := match d.team_size with
    | some sz => teamSizeAdjust sz s
    | none => s
  match d.monthly_budget with
  | some b => budgetAdjust b s3
  | none => s3

/-- `calculateDynamicEPICScores` (epic-scores.js lines 105–213), number
path: base 30s, industry and stage adjustments, team-size and budget
adjustments, final clamp to `[0, 100]`. -/
def calculateDynamicEPICScores (d : DynInput) : Vec4 ℤ :=
  clampScores (dynTeamBudget d (dynIndustryStage d ⟨30, 30, 30, 30⟩))

/-- `calculateDynamicEPICScores` with the prototype-chain path: if the
(defaulted) industry or stage string names an `Object.prototype` property,
`if (table[key])` is truthy, the adjustment block runs with undefined fields,
`scores.X += undefined` makes every score `NaN`, the later blocks keep it
`NaN`, and the final `Math.max(0, Math.min(100, NaN))` is still `NaN` —
represented by `none`.  Otherwise the number path applies. -/
def calculateDynamicEPICScoresJS (d : DynInput) : Option (Vec4 ℤ) :=
  if jsOrStr d.industry "General" ∈ protoKeys ∨
      jsOrStr d.business_stage "Growth" ∈ protoKeys then none
  else some (calculateDynamicEPICScores d)

/-- The `names` map of `getPrimaryStrategy`; the source's
`|| 'Balanced GTM Strategy'` default is dead code as the map is total over
the four letters. -/
def strategyName : Letter → String
  | Letter.E => "Ecosystem-Led Growth"
  | Letter.P => "Product-Led Growth"
  | Letter.I => "Inbound/Outbound Sales"
  | Letter.C => "Community-Led Growth"

/-- `getPrimaryStrategy` (epic-scores.js lines 215–227): name the letter of
the top entry of the stable descending sort. -/
def getPrimaryStrategy (s : Vec4 ℤ) : String := strategyName (primarySorted s)

/-- The recommendation list built by `getRecommendations` (epic-scores.js
lines 229–271) before the final `join('; ')`. -/
def getRecommendationsList (s : Vec4 ℤ) (d : DynInput) : List String :=
  let primary := (sortedEntries s).getD 0 (Letter.P, 0)
  let secondary := (sortedEntries s).getD 1 (Letter.P, 0)
  let r1 : List String :=
    if primary.1 = Letter.E ∧ primary.2 > 50 then
      ["Build strategic partnerships and technology integrations",
       "Create partner enablement programs and co-marketing initiatives"]
    else if primary.1 = Letter.P ∧ primary.2 > 50 then
      ["Implement self-service onboarding and free trial",
       "Focus on product virality and usage-based growth"]
    else if primary.1 = Letter.I ∧ primary.2 > 50 then
      ["Scale content marketing and SEO initiatives",
       "Build predictable outbound sales processes"]
    else if primary.1 = Letter.C ∧ primary.2 > 50 then
      ["Launch community platform and engagement programs",
       "Develop user-generated content and advocacy initiatives"]
    else []
  let r2 : List String :=
    if secondary.2 > 40 then
      match secondary.1 with
      | Letter.E => ["Explore marketplace and integration opportunities"]
      | Letter.P => ["Optimize for self-service adoption"]
      | Letter.I => ["Invest in demand generation and ABM"]
      | Letter.C => ["Foster peer-to-peer learning and support"]
    else []
  let r3 : List String :=
    if d.business_stage = some "MVP" ∨ d.business_stage = some "Pre-launch" then
      ["Focus on product-market fit validation"]
    else if d.business_stage = some "Scale" ∨ d.business_stage = some "Enterprise" then
      ["Build scalable go-to-market infrastructure"]
    else []
  r1 ++ r2 ++ r3

/-- `getRecommendations` returns the `'; '`-join of the list. -/
def getRecommendations (s : Vec4 ℤ) (d : DynInput) : String :=
  String.intercalate "; " (getRecommendationsList s d)

/-- One quarterly milestone of `generateQuarterlyMilestones`. -/
structure Milestone where
  quarter : String
  focus : String
  target_improvement : ℤ
  key_actions : String
deriving DecidableEq, Repr

/-- `getQuarterActions` (epic-scores.js lines 306–335); the
`actions[strategy]?.[quarter] ||` default only fires for quarters outside
`Q1`–`Q4`. -/
def getQuarterActions (strategy : Letter) (quarter : String) : String :=
  match strategy with
  | Letter.E =>
    if quarter = "Q1" then "Identify and onboard 5-10 strategic partners"
    else if quarter = "Q2" then "Launch co-marketing campaigns with top partners"
    else if quarter = "Q3" then "Build partner portal and certification program"
    else if quarter = "Q4" then "Achieve 30% revenue through partner channels"
    else "Continue optimization and testing"
  | Letter.P =>
    if quarter = "Q1" then "Launch self-service trial with optimized onboarding"
    else if quarter = "Q2" then "Implement product-led growth loops"
    else if quarter = "Q3" then "Achieve 50% self-service customer acquisition"
    else if quarter = "Q4" then "Launch freemium tier for market expansion"
    else "Continue optimization and testing"
  | Letter.I =>
    if quarter = "Q1" then "Build content library and SEO foundation"
    else if quarter = "Q2" then "Launch outbound SDR team and processes"
    else if quarter = "Q3" then "Optimize CAC and implement ABM"
    else if quarter = "Q4" then "Achieve predictable pipeline generation"
    else "Continue optimization and testing"
  | Letter.C =>
    if quarter = "Q1" then "Launch community platform with 100+ members"
    else if quarter = "Q2" then "Host first community event or meetup"
    else if quarter = "Q3" then "Build ambassador and advocacy programs"
    else if quarter = "Q4" then "Achieve 25% support deflection through community"
    else "Continue optimization and testing"

/-- `generateQuarterlyMilestones` (epic-scores.js lines 273–304): four fixed
quarters keyed off the sorted primary letter. -/
def generateQuarterlyMilestones (s : Vec4 ℤ) : List Milestone :=
  let primary := primarySorted s
  [⟨"Q1", "Foundation", 5, getQuarterActions primary "Q1"⟩,
   ⟨"Q2", "Implementation", 10, getQuarterActions primary "Q2"⟩,
   ⟨"Q3", "Scaling", 15, getQuarterActions primary "Q3"⟩,
   ⟨"Q4", "Optimization", 20, getQuarterActions primary "Q4"⟩]

/-! ## analyze.js — recommendations and roadmap -/

/-- One entry of `digitalAnalysis.recommendations` as produced by
`generateBasicDigitalRecommendations`. -/
structure DigitalRec where
  action : String
  priority : String
  epic_component : String
deriving DecidableEq, Repr

/-- The digital block of `generateActionableRecommendations`
(`if (digitalAnalysis && digitalAnalysis.recommendations) { ... }`):
high-priority entries, at most two, rendered with their EPIC component. -/
def digitalRecsOf (digital : Option (List DigitalRec)) : List String :=
  match digital with
  | some recs =>
    ((recs.filter (fun r => r.priority = "high")).take 2).map
      (fun r => r.action ++ " (" ++ r.epic_component ++ " focus)")
  | none => []

/-- The industry-specific block of `generateActionableRecommendations`. -/
def industryRecsOf (industry : String) : List String :=
  if industry = "SaaS" then
    ["Focus on product-led growth with freemium-to-paid conversion optimization"]
  else if industry = "Healthcare" then
    ["Emphasize compliance-first messaging and regulatory partnership ecosystem"]
  else if industry = "Finance" then
    ["Build trust through thought leadership and regulatory compliance expertise"]
  else []

/-- `generateActionableRecommendations` (analyze.js lines 220–269): canned
triples for every letter scoring `≥ 70`, up to two high-priority digital
recommendations, industry-specific one-liners, then `slice(0, 8)`. -/
def generateActionableRecommendations (industry : String) (s : Vec4 ℤ)
    (digital : Option (List DigitalRec)) : List String :=
  let rE : List String := if s.E ≥ 70 then
      ["Implement Account-Based Marketing (ABM) for high-value enterprise prospects",
       "Build strategic partnership ecosystem to leverage unique data advantages",
       "Develop relationship intelligence system for sales acceleration"]
    else []
  let rP : List String := if s.P ≥ 70 then
      ["Engineer product as primary GTM engine with built-in viral loops",
       "Optimize user onboarding and activation for self-service conversion",
       "Implement usage-based pricing model aligned with product value"]
    else []
  let rI : List String := if s.I ≥ 70 then
      ["Launch integrated content marketing targeting specific buyer personas",
       "Implement hyper-personalized outbound sequences based on buyer signals",
       "Optimize conversion funnel with mental velocity principles"]
    else []
  let rC : List String := if s.C ≥ 70 then
      ["Build industry community through thought leadership and expert positioning",
       "Create customer advocacy program with authentic testimonials",
       "Develop content strategy around community-driven insights"]
    else []
  (rE ++ rP ++ rI ++ rC ++ digitalRecsOf digital ++ industryRecsOf industry).take 8

/-- The four-phase roadmap object of analyze.js. -/
structure Roadmap4 where
  days_30 : List String
  days_60 : List String
  first_quarter : List String
  second_quarter : List String
deriving DecidableEq, Repr

/-- `generateGTMRoadmap` (analyze.js lines 272–368): branches on substring
tests of the primary-focus name; `inputData` and `secondaryFocus` are accepted
by the source but never read. -/
def generateGTMRoadmap (primaryFocus : String) : Roadmap4 :=
  if includesStr primaryFocus.data "Product-Led" then
    ⟨["Audit current user onboarding flow and identify friction points",
      "Implement product usage analytics and user tracking",
      "Create self-service trial experience design"],
     ["Launch optimized onboarding flow with progressive disclosure",
      "Implement usage-based engagement triggers and expansion prompts",
      "A/B test pricing page and conversion funnel optimization"],
     ["Scale successful PLG motions with automated user journey optimization",
      "Launch referral program and viral growth mechanisms",
      "Measure and optimize product-qualified lead (PQL) conversion"],
     ["Implement advanced product-led sales (PLS) hybrid model",
      "Launch enterprise PLG features with white-glove onboarding",
      "Optimize product-market fit based on comprehensive usage analytics"]⟩
  else if includesStr primaryFocus.data "Ecosystem" then
    ⟨["Map current partner ecosystem and identify strategic gaps",
      "Develop ideal customer profile (ICP) for ABM targeting",
      "Research and prioritize top 50 enterprise prospects"],
     ["Launch pilot ABM campaigns for top 20 enterprise accounts",
      "Establish strategic partnerships with complementary solution providers",
      "Implement relationship intelligence tools and account mapping"],
     ["Scale ABM approach with personalized account journeys",
      "Expand partner ecosystem with joint go-to-market initiatives",
      "Launch partner enablement program with co-marketing materials"],
     ["Develop enterprise channel partner program with certification",
      "Launch strategic alliance partnerships with technology integrations",
      "Measure partnership-driven pipeline and optimize ROI"]⟩
  else if includesStr primaryFocus.data "Inbound" then
    ⟨["Complete buyer persona research and journey mapping",
      "Audit content strategy and identify high-intent keywords",
      "Create editorial calendar aligned with sales cycles"],
     ["Launch thought leadership content series targeting decision makers",
      "Implement lead scoring and marketing automation workflows",
      "Begin hyper-personalized outbound campaigns based on content engagement"],
     ["Scale content distribution across multiple channels and platforms",
      "Optimize conversion paths with A/B tested landing pages",
      "Implement attribution modeling for content-driven pipeline"],
     ["Launch account-based content strategy for enterprise prospects",
      "Implement advanced marketing automation with predictive scoring",
      "Develop thought leadership speaking and industry recognition strategy"]⟩
  else
    ⟨["Define community vision and core value proposition",
      "Research community platforms and engagement strategies",
      "Create founding member outreach and onboarding process"],
     ["Launch community with high-value content and expert positioning",
      "Implement community engagement and moderation workflows",
      "Begin thought leadership content creation from community insights"],
     ["Scale community growth with member-driven content and advocacy",
      "Launch community-driven product feedback and development cycles",
      "Measure community engagement impact on sales and retention metrics"],
     ["Develop community-led customer success and expansion programs",
      "Launch industry events and community-driven thought leadership",
      "Implement community influence on product roadmap and strategy"]⟩

/-- The output of the spec's core `computeConsultation` signature (§6):
scores, primary/secondary focus, recommendations and roadmap, exactly the
fields the analyze.js handler derives from the scorer and
`generateStrategicAnalysis` (its `consultation_id` and `timestamp` are
transport metadata outside this signature). -/
structure ConsultationResult where
  epic_scores : Vec4 ℤ
  primary_focus : String
  secondary_focus : String
  recommendations : List String
  roadmap : Roadmap4
deriving DecidableEq, Repr

/-- The core pipeline of analyze.js: `analyzeEPICFramework` followed by
`generateStrategicAnalysis` (primary via the `if` chain, secondary via the
stable sort, recommendations, roadmap).  `digitalAnalysis` is `null` when no
URLs are supplied, as in the handler; the spec's core signature carries no
URL fields. -/
def computeConsultation (inp : AnalyzeInput) : ConsultationResult :=
  let s := analyzeEPICFramework inp
  let pf := focusName (primaryFocusLetter s)
  { epic_scores := s
    primary_focus := pf
    secondary_focus := focusName (secondarySorted s)
    recommendations := generateActionableRecommendations inp.industry s none
    roadmap := generateGTMRoadmap pf }

/-! ## roadmap.js (src/unnamed/part_007) — the roadmap engine -/

/-- The `priorityMapping` table of `mapPrioritiesToEPIC`, own keys only;
keys are looked up on the lower-cased priority, values are the letter list
and the weight label.  A lower-cased priority equal to an all-lowercase
`Object.prototype` key (`"constructor"`, `"__proto__"`) finds the truthy
inherited property in the source and `mapping.epic.forEach` then throws a
`TypeError` — that path is modelled in `mapPrioritiesToEPICJS`. -/
def priorityMapping (p : String) : Option (List Letter × String) :=
  if p = "lead generation" then some ([Letter.I, Letter.P], "high")
  else if p = "customer acquisition" then some ([Letter.E, Letter.I], "high")
  else if p = "brand awareness" then some ([Letter.I, Letter.C], "medium")
  else if p = "customer retention" then some ([Letter.P, Letter.C], "high")
  else if p = "market expansion" then some ([Letter.E, Letter.I], "medium")
  else if p = "product adoption" then some ([Letter.P], "high")
  else if p = "sales enablement" then some ([Letter.E, Letter.I], "medium")
  else if p = "partnership development" then some ([Letter.E], "medium")
  else if p = "content marketing" then some ([Letter.I], "medium")
  else if p = "community building" then some ([Letter.C], "low")
  else if p = "conversion optimization" then some ([Letter.P, Letter.I], "high")
  else if p = "competitive differentiation" then some ([Letter.E, Letter.P], "medium")
  else none

/-- `epicScores[letter] += weight`. -/
def bumpLetter (s : Vec4 ℤ) (l : Letter) (w : ℤ) : Vec4 ℤ :=
  match l with
  | Letter.E => { s with E := s.E + w }
  | Letter.P => { s with P := s.P + w }
  | Letter.I => { s with I := s.I + w }
  | Letter.C => { s with C := s.C + w }

/-- `mapPrioritiesToEPIC` (part_007 lines 260–295): accumulate weighted
letters per recognized priority, then primary/secondary from the stable
descending sort. -/
def mapPrioritiesToEPIC (priorities : List String) :
    Letter × Letter × Vec4 ℤ :=
  let scores := priorities.foldl (fun s p =>
    match priorityMapping (String.mk (lower p)) with
    | some (ls, wt) =>
      let w : ℤ := if wt = "high" then 3 else if wt = "medium" then 2 else 1
      ls.foldl (fun t l => bumpLetter t l w) s
    | none => s) ⟨0, 0, 0, 0⟩
  (primarySorted scores, secondarySorted scores, scores)

/-- `mapPrioritiesToEPIC` with the prototype-chain path: a priority whose
lower-casing hits an `Object.prototype` key makes `priorityMapping[p]` a
truthy inherited value without an `epic` array, and `mapping.epic.forEach`
throws a `TypeError` — represented by `none`.  Otherwise the number path
applies. -/
def mapPrioritiesToEPICJS (priorities : List String) :
    Option (Letter × Letter × Vec4 ℤ) :=
  if priorities.any (fun p => String.mk (lower p) ∈ protoKeys) then none
  else some (mapPrioritiesToEPIC priorities)

/-- `budgetTiers[budget_range]` of `analyzeResourceConstraints`. -/
def budgetTierOf (b : String) : Option String :=
  if b = "<25k" then some "minimal"
  else if b = "25k-50k" then some "lean"
  else if b = "50k-100k" then some "moderate"
  else if b = "100k-250k" then some "substantial"
  else if b = "250k-500k" then some "strong"
  else if b = "500k+" then some "enterprise"
  else none

/-- `teamTiers[team_size]` of `analyzeResourceConstraints`. -/
def teamTierOf (t : String) : Option String :=
  if t = "1-2" then some "startup"
  else if t = "3-5" then some "small"
  else if t = "5-10" then some "medium"
  else if t = "10-20" then some "large"
  else if t = "20+" then some "enterprise"
  else none

/-- `budgetScore[budgetTier] || 3` of `calculateCapacity` (an undefined tier
also yields the default 3). -/
def budgetScoreOf (o : Option String) : ℤ :=
  match o with
  | none => 3
  | some s =>
    if s = "minimal" then 1 else if s = "lean" then 2
    else if s = "moderate" then 3 else if s = "substantial" then 4
    else if s = "strong" then 5 else if s = "enterprise" then 6 else 3

/-- `teamScore[teamTier] || 3` of `calculateCapacity`. -/
def teamScoreOf (o : Option String) : ℤ :=
  match o with
  | none => 3
  | some s =>
    if s = "startup" then 1 else if s = "small" then 2
    else if s = "medium" then 3 else if s = "large" then 4
    else if s = "enterprise" then 5 else 3

/-- `calculateCapacity` (part_007 lines 322–332). -/
def calculateCapacity (budgetTier teamTier : Option String) : String :=
  let total := budgetScoreOf budgetTier + teamScoreOf teamTier
  if total ≤ 3 then "constrained"
  else if total ≤ 6 then "moderate"
  else if total ≤ 9 then "strong"
  else "high"

/-- The fixed per-letter `templates` of `getEPICRoadmapTemplate`
(part_007 lines 349–454): four tasks per phase per letter. -/
def roadmapTemplates : Letter → Roadmap4
  | Letter.E =>
    ⟨["Map current partner ecosystem and identify strategic gaps",
      "Develop ideal customer profile (ICP) for target accounts",
      "Research and prioritize top 50 enterprise prospects",
      "Create account mapping and stakeholder analysis"],
     ["Launch pilot ABM campaigns for top 20 accounts",
      "Establish strategic partnerships with key solution providers",
      "Implement account intelligence and relationship mapping tools",
      "Create personalized outbound sequences for target accounts"],
     ["Scale ABM approach with account-based journeys",
      "Expand partner ecosystem with joint go-to-market initiatives",
      "Launch partner enablement program with co-marketing materials",
      "Implement advanced account-based experience (ABX) across teams"],
     ["Develop enterprise channel partner program with certification",
      "Launch strategic alliance partnerships with technology integrations",
      "Measure partnership-driven pipeline and optimize ROI",
      "Establish customer advisory board and reference program"]⟩
  | Letter.P =>
    ⟨["Audit user onboarding flow and identify friction points",
      "Implement product usage analytics and user tracking",
      "Create self-service trial experience design",
      "Establish product-qualified lead (PQL) scoring system"],
     ["Launch optimized onboarding with progressive feature disclosure",
      "Implement automated engagement triggers and nudges",
      "A/B testing framework for conversion optimization",
      "Create in-product upgrade prompts and expansion paths"],
     ["Scale PLG motions with automated user journey optimization",
      "Launch referral program and viral growth mechanisms",
      "Implement usage-based pricing and expansion revenue tracking",
      "Optimize product-market fit based on usage data"],
     ["Launch advanced product-led sales (PLS) hybrid model",
      "Implement predictive analytics for user behavior and churn",
      "Develop enterprise PLG features with white-glove onboarding",
      "Create product-led customer success and expansion programs"]⟩
  | Letter.I =>
    ⟨["Complete buyer persona research and journey mapping",
      "Audit content strategy and identify high-intent keywords",
      "Create editorial calendar aligned with sales cycles",
      "Set up marketing automation and lead scoring framework"],
     ["Launch thought leadership content series targeting decision makers",
      "Implement SEO optimization for target keywords",
      "Begin hyper-personalized outbound campaigns",
      "Launch demand generation campaigns across multiple channels"],
     ["Scale content distribution and amplification strategies",
      "Optimize conversion paths with landing page testing",
      "Implement attribution modeling for content-driven pipeline",
      "Launch account-based content strategy for enterprise"],
     ["Develop industry thought leadership and speaking opportunities",
      "Launch advanced marketing automation with predictive scoring",
      "Implement omnichannel demand generation orchestration",
      "Create content-driven customer advocacy and expansion programs"]⟩
  | Letter.C =>
    ⟨["Define community vision and value proposition",
      "Research community platforms and engagement strategies",
      "Create founding member outreach plan",
      "Develop community guidelines and moderation framework"],
     ["Launch community with initial content and expert positioning",
      "Implement community engagement workflows",
      "Begin thought leadership content creation from community insights",
      "Establish community-driven feedback loops"],
     ["Scale community growth with member-driven advocacy",
      "Launch community-influenced product development",
      "Measure community impact on customer acquisition and retention",
      "Create community-driven customer success programs"],
     ["Develop community-led customer advisory and expansion programs",
      "Launch industry events and community-driven thought leadership",
      "Implement community influence on product roadmap and strategy",
      "Create community-powered partner and ecosystem development"]⟩

/-- `getEPICRoadmapTemplate` (part_007 lines 348–466): the primary letter's
four tasks per phase plus the secondary letter's first task
(`[...primaryTemplate.phase, secondaryTemplate.phase[0]]`). -/
def getEPICRoadmapTemplate (primary secondary : Letter) : Roadmap4 :=
  let pt := roadmapTemplates primary
  let st := roadmapTemplates secondary
  ⟨pt.days_30 ++ st.days_30.take 1,
   pt.days_60 ++ st.days_60.take 1,
   pt.first_quarter ++ st.first_quarter.take 1,
   pt.second_quarter ++ st.second_quarter.take 1⟩

/-- One annotated roadmap entry. -/
structure TaskItem where
  task : String
  owner : String
  deadline : String
  success_metric : String
deriving DecidableEq, Repr

/-- The `taskOwnership` table of `suggestOwner`, in object order. -/
def ownerTable : List (String × String) :=
  [("mapping", "Marketing Manager"), ("research", "Marketing Analyst"),
   ("content", "Content Manager"), ("campaign", "Growth Manager"),
   ("partnership", "Business Development"), ("product", "Product Manager"),
   ("automation", "Marketing Ops"), ("community", "Community Manager"),
   ("analytics", "Data Analyst")]

/-- `suggestOwner` (part_007 lines 506–527): first keyword hit wins; the
`constrained` tier forces "Marketing Lead"; no hit gives "Marketing Team". -/
def suggestOwner (task : String) (capacity : String) : String :=
  match ownerTable.find? (fun p => includesStr (lower task) p.1) with
  | some p => if capacity = "constrained" then "Marketing Lead" else p.2
  | none => "Marketing Team"

/-- The `metricMap` table of `suggestSuccessMetric`, in object order. -/
def metricTable : List (String × String) :=
  [("mapping", "Strategic gaps identified and documented"),
   ("research", "Target list created with contact details"),
   ("content", "Content pieces published and promoted"),
   ("campaign", "Campaign launched with initial results"),
   ("partnership", "Partner agreements signed"),
   ("product", "Feature released and adoption tracked"),
   ("automation", "Workflows active with performance metrics"),
   ("community", "Community launched with active members"),
   ("analytics", "Tracking implemented with baseline metrics")]

/-- `suggestSuccessMetric` (part_007 lines 535–554). -/
def suggestSuccessMetric (task : String) : String :=
  match metricTable.find? (fun p => includesStr (lower task) p.1) with
  | some p => p.2
  | none => "Task completed with measurable outcome"

/-- `capacityMultipliers[capacity] || 1.0`, stored ×10 (`0.6 ↦ 6`, …). -/
def capacityMultOf (capacity : String) : ℤ :=
  if capacity = "constrained" then 6
  else if capacity = "moderate" then 8
  else if capacity = "strong" then 10
  else if capacity = "high" then 12
  else 10

/-- `calculateDeadline` (part_007 lines 529–533):
`Day ${Math.min(maxDays, Math.max(7, Math.round(Math.round(maxDays*0.8) * multiplier)))}`
with the multiplier stored ×10. -/
def calculateDeadline (maxDays mult10 : ℤ) : String :=
  let baseDeadline := jsRound10 (maxDays * 8)
  let adjusted := jsRound10 (baseDeadline * mult10)
  "Day " ++ toString (min maxDays (max 7 adjusted))

/-- The per-task annotation of `adjustForCapacity`. -/
def mkTask (capacity : String) (mult10 maxDays : ℤ) (t : String) : TaskItem :=
  ⟨t, suggestOwner t capacity, calculateDeadline maxDays mult10,
   suggestSuccessMetric t⟩

/-- The annotated four-phase roadmap produced by `adjustForCapacity`. -/
structure AdjRoadmap where
  days_30 : List TaskItem
  days_60 : List TaskItem
  first_quarter : List TaskItem
  second_quarter : List TaskItem
deriving DecidableEq, Repr

/-- `adjustForCapacity` (part_007 lines 468–504): annotate every task with
owner, deadline and success metric; the capacity multiplier enters only the
deadline computation. -/
def adjustForCapacity (r : Roadmap4) (capacity : String) : AdjRoadmap :=
  let m := capacityMultOf capacity
  ⟨r.days_30.map (mkTask capacity m 30),
   r.days_60.map (mkTask capacity m 60),
   r.first_quarter.map (mkTask capacity m 90),
   r.second_quarter.map (mkTask capacity m 180)⟩

/-- The object returned by `fitToTimeline`: phases that the source omits from
the returned object literal are `none`. -/
structure FittedRoadmap where
  days_30 : Option (List TaskItem)
  days_60 : Option (List TaskItem)
  first_quarter : Option (List TaskItem)
  second_quarter : Option (List TaskItem)
  focus : String
deriving DecidableEq, Repr

/-- `fitToTimeline` (part_007 lines 556–581). -/
def fitToTimeline (r : AdjRoadmap) (timeline : String) : FittedRoadmap :=
  if timeline = "30 days" then
    ⟨some r.days_30, none, none, none, "Foundation and Quick Wins"⟩
  else if timeline = "60 days" then
    ⟨some r.days_30, some r.days_60, none, none, "Implementation and Execution"⟩
  else if timeline = "first quarter" ∨ timeline = "90 days" then
    ⟨some r.days_30, some r.days_60, some r.first_quarter, none,
     "Scale and Systematic Growth"⟩
  else
    ⟨some r.days_30, some r.days_60, some r.first_quarter,
     some r.second_quarter, "Complete Strategic Implementation"⟩

/-! ## Helper lemmas: the three primary-focus computations agree, and the
sorted letters are a duplicate-free permutation of `E, P, I, C`. -/

set_option maxHeartbeats 1600000

theorem primarySorted_eq_firstMax (s : Vec4 ℤ) : primarySorted s = firstMaxLetter s := by
  unfold primarySorted sortedLetters sortedEntries entriesOf firstMaxLetter
  by_cases h1 : s.C ≤ s.I <;> by_cases h2 : s.I ≤ s.P <;> by_cases h3 : s.C ≤ s.P <;>
    by_cases h4 : s.P ≤ s.E <;> by_cases h5 : s.I ≤ s.E <;> by_cases h6 : s.C ≤ s.E <;>
    simp [h1, h2, h3, h4, h5, h6, List.insertionSort, List.orderedInsert] <;>
    omega

theorem primaryFocusLetter_eq_firstMax (s : Vec4 ℤ) :
    primaryFocusLetter s = firstMaxLetter s := by
  unfold primaryFocusLetter firstMaxLetter max4
  simp only [max_def]
  split_ifs <;> first | rfl | omega

theorem findPrimary_eq_firstMax (s : Vec4 ℤ) : findPrimary s = firstMaxLetter s := by
  unfold findPrimary firstMaxLetter Vec4.at
  have hM1 : s.E ≤ max4 s := by unfold max4; simp only [max_def]; split_ifs <;> omega
  have hM2 : s.P ≤ max4 s := by unfold max4; simp only [max_def]; split_ifs <;> omega
  have hM3 : s.I ≤ max4 s := by unfold max4; simp only [max_def]; split_ifs <;> omega
  have hM4 : s.C ≤ max4 s := by unfold max4; simp only [max_def]; split_ifs <;> omega
  have hM5 : max4 s = s.E ∨ max4 s = s.P ∨ max4 s = s.I ∨ max4 s = s.C := by
    unfold max4; simp only [max_def]; split_ifs <;> simp
  generalize hM : max4 s = M at hM1 hM2 hM3 hM4 hM5 ⊢
  rcases hE : decide (s.E = M) with _ | _ <;> rcases hP : decide (s.P = M) with _ | _ <;>
    rcases hI : decide (s.I = M) with _ | _ <;> rcases hC : decide (s.C = M) with _ | _ <;>
    simp only [List.find?, hE, hP, hI, hC, Option.getD_some, Option.getD_none] <;>
    simp only [decide_eq_true_eq, decide_eq_false_iff_not] at hE hP hI hC <;>
    split_ifs <;> first | rfl | omega

theorem sortedLetters_perm (s : Vec4 ℤ) :
    (sortedLetters s).Perm [Letter.E, Letter.P, Letter.I, Letter.C] := by
  have h := (List.perm_insertionSort (fun a b : Letter × ℤ => b.2 ≤ a.2) (entriesOf s)).map Prod.fst
  simpa [sortedLetters, sortedEntries, entriesOf] using h

theorem nodup_sortedLetters (s : Vec4 ℤ) : (sortedLetters s).Nodup :=
  (sortedLetters_perm s).nodup_iff.mpr (by decide)

theorem primarySorted_ne_secondarySorted (s : Vec4 ℤ) :
    primarySorted s ≠ secondarySorted s := by
  have hlen := (sortedLetters_perm s).length_eq
  have hnd := nodup_sortedLetters s
  unfold primarySorted secondarySorted
  rcases hsl : sortedLetters s with _ | ⟨a, _ | ⟨b, t⟩⟩
  · rw [hsl] at hlen; simp at hlen
  · rw [hsl] at hlen; simp at hlen
  · rw [hsl] at hnd
    simp only [List.getD_cons_zero, List.getD_cons_succ]
    intro hab
    exact (List.nodup_cons.mp hnd).1 (hab ▸ List.mem_cons_self b t)

/-! ## Helper lemmas: bounds and monotonicity of the keyword pass -/

theorem challengeKeywords_nonneg :
    ∀ p ∈ challengeKeywords, 0 ≤ p.2.E ∧ 0 ≤ p.2.P ∧ 0 ≤ p.2.I ∧ 0 ≤ p.2.C := by decide

theorem foldl_challengeStep_bounded (l : List (String × Vec4 ℤ))
    (hl : ∀ p ∈ l, 0 ≤ p.2.E ∧ 0 ≤ p.2.P ∧ 0 ≤ p.2.I ∧ 0 ≤ p.2.C)
    (text : List Char) (s : Vec4 ℤ) (hs : Vec4.bounded s) :
    Vec4.bounded (l.foldl (challengeStep text) s) := by
  induction l generalizing s with
  | nil => exact hs
  | cons p l ih =>
    have hp := hl p (List.mem_cons_self p l)
    refine ih (fun q hq => hl q (List.mem_cons_of_mem p hq)) _ ?_
    unfold challengeStep
    split_ifs
    · unfold Vec4.bounded at hs ⊢
      dsimp only
      omega
    · exact hs

theorem foldl_challengeStep_mono (l : List (String × Vec4 ℤ))
    (hl : ∀ p ∈ l, 0 ≤ p.2.E ∧ 0 ≤ p.2.P ∧ 0 ≤ p.2.I ∧ 0 ≤ p.2.C)
    (t t' : List Char)
    (ht : ∀ kw : String, includesStr t kw = true → includesStr t' kw = true)
    (s s' : Vec4 ℤ) (hle : Vec4.le s s')
    (hb : s.E ≤ 100 ∧ s.P ≤ 100 ∧ s.I ≤ 100 ∧ s.C ≤ 100) :
    Vec4.le (l.foldl (challengeStep t) s) (l.foldl (challengeStep t') s') := by
  induction l generalizing s s' with
  | nil => exact hle
  | cons p l ih =>
    have hp := hl p (List.mem_cons_self p l)
    have hl' := fun q hq => hl q (List.mem_cons_of_mem p hq)
    simp only [List.foldl_cons]
    by_cases h1 : includesStr t p.1
    · have h2 := ht _ h1
      unfold challengeStep
      rw [if_pos h1, if_pos h2]
      refine ih hl' _ _ ?_ ?_
      · unfold Vec4.le at hle ⊢; dsimp only; omega
      · dsimp only; omega
    · by_cases h2 : includesStr t' p.1
      · unfold challengeStep
        rw [if_neg h1, if_pos h2]
        refine ih hl' _ _ ?_ ?_
        · unfold Vec4.le at hle ⊢; dsimp only; omega
        · exact hb
      · unfold challengeStep
        rw [if_neg h1, if_neg h2]
        exact ih hl' _ _ hle hb

theorem stageWeightsOf_bounds (s : String) :
    0 ≤ (stageWeightsOf s).E ∧ (stageWeightsOf s).E ≤ 60 ∧
    0 ≤ (stageWeightsOf s).P ∧ (stageWeightsOf s).P ≤ 60 ∧
    0 ≤ (stageWeightsOf s).I ∧ (stageWeightsOf s).I ≤ 60 ∧
    0 ≤ (stageWeightsOf s).C ∧ (stageWeightsOf s).C ≤ 60 := by
  unfold stageWeightsOf; split_ifs <;> decide

theorem industryModOf_bounds (s : String) :
    0 ≤ (industryModOf s).E ∧ (industryModOf s).E ≤ 14 ∧
    0 ≤ (industryModOf s).P ∧ (industryModOf s).P ≤ 14 ∧
    0 ≤ (industryModOf s).I ∧ (industryModOf s).I ≤ 14 ∧
    0 ≤ (industryModOf s).C ∧ (industryModOf s).C ≤ 14 := by
  unfold industryModOf; split_ifs <;> decide

theorem epicBase_bounded (w m : Vec4 ℤ)
    (hw : 0 ≤ w.E ∧ w.E ≤ 60 ∧ 0 ≤ w.P ∧ w.P ≤ 60 ∧
          0 ≤ w.I ∧ w.I ≤ 60 ∧ 0 ≤ w.C ∧ w.C ≤ 60)
    (hm : 0 ≤ m.E ∧ m.E ≤ 14 ∧ 0 ≤ m.P ∧ m.P ≤ 14 ∧
          0 ≤ m.I ∧ m.I ≤ 14 ∧ 0 ≤ m.C ∧ m.C ≤ 14) :
    Vec4.bounded (epicBase w m) := by
  obtain ⟨hwE0, hwE, hwP0, hwP, hwI0, hwI, hwC0, hwC⟩ := hw
  obtain ⟨hmE0, hmE, hmP0, hmP, hmI0, hmI, hmC0, hmC⟩ := hm
  have hE1 : w.E * m.E ≤ 60 * 14 := mul_le_mul hwE hmE hmE0 (by omega)
  have hP1 : w.P * m.P ≤ 60 * 14 := mul_le_mul hwP hmP hmP0 (by omega)
  have hI1 : w.I * m.I ≤ 60 * 14 := mul_le_mul hwI hmI hmI0 (by omega)
  have hC1 : w.C * m.C ≤ 60 * 14 := mul_le_mul hwC hmC hmC0 (by omega)
  have hE0 : 0 ≤ w.E * m.E := mul_nonneg hwE0 hmE0
  have hP0 : 0 ≤ w.P * m.P := mul_nonneg hwP0 hmP0
  have hI0 : 0 ≤ w.I * m.I := mul_nonneg hwI0 hmI0
  have hC0 : 0 ≤ w.C * m.C := mul_nonneg hwC0 hmC0
  unfold epicBase jsRound10 Vec4.bounded
  dsimp only
  omega

theorem analyzeEPICFramework_bounded (inp : AnalyzeInput) :
    Vec4.bounded (analyzeEPICFramework inp) :=
  foldl_challengeStep_bounded _ challengeKeywords_nonneg _ _
    (epicBase_bounded _ _ (stageWeightsOf_bounds _) (industryModOf_bounds _))

theorem clampScores_bounded (s : Vec4 ℤ) : Vec4.bounded (clampScores s) := by
  unfold clampScores Vec4.bounded
  dsimp only
  omega

theorem calculateDynamicEPICScores_bounded (d : DynInput) :
    Vec4.bounded (calculateDynamicEPICScores d) :=
  clampScores_bounded _

theorem stageWeightsOf_unknown {s : String} (h : s ∉ stageKeys) :
    stageWeightsOf s = ⟨25, 35, 25, 15⟩ := by
  simp only [stageKeys, List.mem_cons, List.not_mem_nil, or_false, not_or] at h
  unfold stageWeightsOf
  split_ifs <;> simp_all

theorem industryModOf_unknown {s : String} (h : s ∉ industryKeys) :
    industryModOf s = ⟨10, 10, 10, 10⟩ := by
  simp only [industryKeys, List.mem_cons, List.not_mem_nil, or_false, not_or] at h
  unfold industryModOf
  split_ifs <;> simp_all

theorem lower_append (a b : String) : lower (a ++ b) = lower a ++ lower b := by
  unfold lower
  rw [String.data_append, List.map_append]

theorem includesStr_append (t e : List Char) (kw : String)
    (h : includesStr t kw = true) : includesStr (t ++ e) kw = true := by
  unfold includesStr at h ⊢
  rw [decide_eq_true_eq] at h ⊢
  obtain ⟨u, v, huv⟩ := h
  exact ⟨u, v ++ e, by rw [← huv]; simp⟩

theorem Vec4.le_refl (s : Vec4 ℤ) : Vec4.le s s := by unfold Vec4.le; omega

/-! ## The claims -/

/-- C1: the claimed `[0, 100]` bound fails on the program.  The table reads
consult the prototype chain, so an `industry` or `business_stage` equal to an
`Object.prototype` property name such as `"toString"` — an unknown value, in
neither table — finds a truthy inherited function: analyze.js skips its `||`
fallback and epic-scores.js enters its adjustment block with undefined
fields, all four scores become `NaN`, and the final clamp (commented
"Normalize scores to 0-100 range" in the source) does not remove `NaN`
(`= none` below).  The bound is the evident intent and holds on the entire
number path: whenever either scorer returns numbers at all, they lie in
`[0, 100]`. -/
theorem c1_proto_key_escapes_clamp :
    ("toString" ∈ protoKeys ∧ "toString" ∉ stageKeys ∧
      "toString" ∉ industryKeys) ∧
    analyzeEPICFrameworkJS ⟨"toString", "SaaS", "improve lead generation"⟩ =
      none ∧
    calculateDynamicEPICScoresJS ⟨some "toString", none, none, none⟩ = none ∧
    (∀ (inp : AnalyzeInput) (s : Vec4 ℤ),
      analyzeEPICFrameworkJS inp = some s → Vec4.bounded s) ∧
    (∀ (d : DynInput) (s : Vec4 ℤ),
      calculateDynamicEPICScoresJS d = some s → Vec4.bounded s) := by
  refine ⟨by decide, by decide, by decide, ?_, ?_⟩
  · intro inp s h
    unfold analyzeEPICFrameworkJS at h
    split at h
    · exact Option.noConfusion h
    · obtain rfl := Option.some.inj h
      exact analyzeEPICFramework_bounded inp
  · intro d s h
    unfold calculateDynamicEPICScoresJS at h
    split at h
    · exact Option.noConfusion h
    · obtain rfl := Option.some.inj h
      exact calculateDynamicEPICScores_bounded d

/-- C1 witness: the number-path boundedness conjuncts applied at concrete
inputs, hypotheses discharged by evaluation. -/
theorem c1_proto_key_escapes_clamp_witness :
    Vec4.bounded
      (analyzeEPICFramework ⟨"growth", "SaaS", "improve lead generation"⟩) ∧
    Vec4.bounded (calculateDynamicEPICScores ⟨none, none, none, none⟩) :=
  ⟨c1_proto_key_escapes_clamp.2.2.2.1
      ⟨"growth", "SaaS", "improve lead generation"⟩
      (analyzeEPICFramework ⟨"growth", "SaaS", "improve lead generation"⟩)
      (by decide),
   c1_proto_key_escapes_clamp.2.2.2.2 ⟨none, none, none, none⟩
      (calculateDynamicEPICScores ⟨none, none, none, none⟩) (by decide)⟩

/-- C2 counterexample: on the score vector `(E,P,I,C) = (50,50,30,30)`, where
E and P tie for the maximum, every classifier in the source selects E — the
`if` chain of `generateStrategicAnalysis`, the `find`-based primary of
`analyzeEPICScores`, and the sort-based primary of `getPrimaryStrategy` — not
the P required by the claimed priority order `P > E > I > C`. -/
theorem c2_tie_break_counterexample :
    primaryFocusLetter ⟨50, 50, 30, 30⟩ = Letter.E ∧
    findPrimary ⟨50, 50, 30, 30⟩ = Letter.E ∧
    primarySorted ⟨50, 50, 30, 30⟩ = Letter.E ∧
    Letter.E ≠ Letter.P := by decide

/-- C2 as amended: on every score vector, all three primary-focus
computations in the source pick the first letter in the enumeration order
`E, P, I, C` attaining the maximum, i.e. ties are broken by the fixed
priority order E > P > I > C (not P > E > I > C). -/
theorem c2_tie_break_enum_order (s : Vec4 ℤ) :
    primaryFocusLetter s = firstMaxLetter s ∧
    findPrimary s = firstMaxLetter s ∧
    primarySorted s = firstMaxLetter s :=
  ⟨primaryFocusLetter_eq_firstMax s, findPrimary_eq_firstMax s,
   primarySorted_eq_firstMax s⟩

/-- C3: `computeConsultation` is deterministic — two calls on identical
`BusinessContext` values produce identical output.  The embedded core (the
spec's §6 signature: scores, primary/secondary focus, recommendations,
roadmap) is a pure function; the only non-reproducible values in the source
handlers, `Date.now()`-based consultation ids and ISO timestamps, sit in the
transport envelope outside this signature. -/
theorem c3_computeConsultation_deterministic (c₁ c₂ : AnalyzeInput)
    (h : c₁ = c₂) : computeConsultation c₁ = computeConsultation c₂ := by
  rw [h]

/-- C3 witness: the determinism theorem applied to a concrete context. -/
theorem c3_computeConsultation_deterministic_witness :
    computeConsultation ⟨"growth", "SaaS", "improve lead generation"⟩ =
      computeConsultation ⟨"growth", "SaaS", "improve lead generation"⟩ :=
  c3_computeConsultation_deterministic
    ⟨"growth", "SaaS", "improve lead generation"⟩
    ⟨"growth", "SaaS", "improve lead generation"⟩ rfl

/-- C4: the default-fallback half of the claim fails on the program.
`"toString"` is an unknown stage/industry value — it is in neither table —
yet the prototype-chain read returns a truthy inherited function: the
fallback is not taken and the scores become `NaN` (`= none` below) instead of
a complete, well-formed result.  An ordinary unknown value such as `"Other"`
does receive exactly the neutral/default treatment the claim describes
(`bootstrapped-pmf` weights with the identity modifier in analyze.js, both
adjustment blocks skipped in epic-scores.js), and in roadmap.js the priority
`"constructor"` even throws a `TypeError` rather than being ignored. -/
theorem c4_proto_key_not_defaulted :
    ("toString" ∉ stageKeys ∧ "toString" ∉ industryKeys) ∧
    analyzeEPICFrameworkJS ⟨"toString", "Other", ""⟩ = none ∧
    analyzeEPICFrameworkJS ⟨"Other", "Other", ""⟩ =
      some (applyChallengeAdjust (lower "")
        (epicBase ⟨25, 35, 25, 15⟩ ⟨10, 10, 10, 10⟩)) ∧
    calculateDynamicEPICScoresJS
      ⟨some "toString", some "toString", none, none⟩ = none ∧
    calculateDynamicEPICScoresJS ⟨some "Other", some "Other", none, none⟩ =
      some (clampScores (dynTeamBudget ⟨some "Other", some "Other", none, none⟩
        ⟨30, 30, 30, 30⟩)) ∧
    mapPrioritiesToEPICJS ["constructor"] = none := by decide

/-- C5: for every `EpicScoreVector` the classifier's primary focus differs
from its secondary focus — for the `generateStrategicAnalysis` pair (the `if`
chain primary versus the sort-based secondary), for the purely sort-based
pair, and for `mapPrioritiesToEPIC` of roadmap.js on every priority list.  In
particular a full four-way tie (e.g. the all-equal vector reached from an
empty priority list) still selects two distinct letters (E then P). -/
theorem c5_primary_ne_secondary (s : Vec4 ℤ) (ps : List String) :
    primaryFocusLetter s ≠ secondarySorted s ∧
    primarySorted s ≠ secondarySorted s ∧
    (mapPrioritiesToEPIC ps).1 ≠ (mapPrioritiesToEPIC ps).2.1 := by
  refine ⟨?_, primarySorted_ne_secondarySorted s, ?_⟩
  · rw [primaryFocusLetter_eq_firstMax, ← primarySorted_eq_firstMax]
    exact primarySorted_ne_secondarySorted s
  · unfold mapPrioritiesToEPIC
    exact primarySorted_ne_secondarySorted _

/-- C6 counterexample: on the fully empty input object the dynamic scorer
applies its defaults (`'General'` industry adds `(5,5,5,5)`, `'Growth'` stage
adds `(10,10,15,5)`), returning `(45,45,50,40)` — the four scores are *not*
all equal, contradicting the claimed 30/30/30/30. -/
theorem c6_empty_scores_not_all_equal :
    calculateDynamicEPICScores ⟨none, none, none, none⟩ = ⟨45, 45, 50, 40⟩ ∧
    (calculateDynamicEPICScores ⟨none, none, none, none⟩).E ≠
      (calculateDynamicEPICScores ⟨none, none, none, none⟩).I := by decide

/-- C6 as amended: on the fully empty input the pipeline returns the
defaulted scores `(45,45,50,40)` (base 30 plus the `'General'` and `'Growth'`
default adjustments, not all equal), a deterministic primary strategy
(`I` is the unique maximum, so "Inbound/Outbound Sales"), a non-empty
recommendation list, and all four quarterly milestones populated. -/
theorem c6_empty_input_defaults :
    calculateDynamicEPICScores ⟨none, none, none, none⟩ = ⟨45, 45, 50, 40⟩ ∧
    getPrimaryStrategy (calculateDynamicEPICScores ⟨none, none, none, none⟩) =
      "Inbound/Outbound Sales" ∧
    getRecommendationsList (calculateDynamicEPICScores ⟨none, none, none, none⟩)
      ⟨none, none, none, none⟩ ≠ [] ∧
    (generateQuarterlyMilestones
      (calculateDynamicEPICScores ⟨none, none, none, none⟩)).length = 4 := by
  decide

/-- C7 counterexample: in `analyzeEPICScores` the matched text is the
space-join of challenge, company description and industry, so appending an
additional occurrence of the P-keyword "plg" to the challenge
`"plg for user"` (description `"experience"`) breaks the spanning match of
the two-word P-keyword `"user experience"`: P drops from 2 to 1 — adding a
keyword occurrence *decreased* the letter's score. -/
theorem c7_keyword_occurrence_decreases :
    "plg" ∈ epicKeywords Letter.P ∧
    (analyzeEPICScores "plg for user" "experience" "" "").scores.P = 2 ∧
    (analyzeEPICScores "plg for user plg" "experience" "" "").scores.P = 1 := by
  decide

/-- C7 as amended: in the analyze.js scorer `analyzeEPICFramework`, which
matches keywords against the challenge text alone, appending any additional
text — in particular an extra occurrence of a keyword — never decreases any
letter's score, up to the 100 clamp.  (The multi-field text join of
`analyzeEPICScores` admits the boundary-breaking counterexample above.) -/
theorem c7_append_challenge_monotone (inp : AnalyzeInput) (ext : String) :
    Vec4.le (analyzeEPICFramework inp)
      (analyzeEPICFramework
        { inp with gtm_challenge := inp.gtm_challenge ++ ext }) := by
  unfold analyzeEPICFramework applyChallengeAdjust
  have hb := epicBase_bounded _ _ (stageWeightsOf_bounds inp.business_stage)
    (industryModOf_bounds inp.industry)
  refine foldl_challengeStep_mono _ challengeKeywords_nonneg _ _ ?_ _ _
    (Vec4.le_refl _) ?_
  · intro kw h
    rw [lower_append]
    exact includesStr_append _ _ _ h
  · unfold Vec4.bounded at hb
    omega

/-- C8 counterexample: on a context whose four scores `(25,35,25,15)` all lie
below the 70 threshold and whose industry is unrecognized, the analyze.js
recommendation generator returns the *empty* list — there is no
medium-priority fallback to the highest-scoring letter. -/
theorem c8_no_fallback_empty_recommendations :
    ((analyzeEPICFramework ⟨"Other", "Other", ""⟩).E < 70 ∧
     (analyzeEPICFramework ⟨"Other", "Other", ""⟩).P < 70 ∧
     (analyzeEPICFramework ⟨"Other", "Other", ""⟩).I < 70 ∧
     (analyzeEPICFramework ⟨"Other", "Other", ""⟩).C < 70) ∧
    generateActionableRecommendations "Other"
      (analyzeEPICFramework ⟨"Other", "Other", ""⟩) none = [] := by decide

/-- C8 as amended: when no EPIC letter reaches the 70 threshold,
`generateActionableRecommendations` emits exactly the digital- and
industry-specific recommendations (truncated to 8) — no fallback for the
highest-scoring letter exists, and the list is empty whenever those blocks
are empty too. -/
theorem c8_below_threshold_recs (industry : String) (s : Vec4 ℤ)
    (digital : Option (List DigitalRec))
    (hE : s.E < 70) (hP : s.P < 70) (hI : s.I < 70) (hC : s.C < 70) :
    generateActionableRecommendations industry s digital =
      (digitalRecsOf digital ++ industryRecsOf industry).take 8 := by
  unfold generateActionableRecommendations
  rw [if_neg (by omega), if_neg (by omega), if_neg (by omega), if_neg (by omega)]
  rfl

/-- C8 witness: the below-threshold theorem applied to the SaaS industry and
the concrete score vector `(25,35,25,15)`. -/
theorem c8_below_threshold_recs_witness :
    generateActionableRecommendations "SaaS" ⟨25, 35, 25, 15⟩ none =
      (digitalRecsOf none ++ industryRecsOf "SaaS").take 8 :=
  c8_below_threshold_recs "SaaS" ⟨25, 35, 25, 15⟩ none
    (by decide) (by decide) (by decide) (by decide)

/-- C9 counterexample: `fitToTimeline` with timeline `"30 days"` omits the
`days_60`, `first_quarter` and `second_quarter` keys from the returned
object — the roadmap does not always contain all four phase keys. -/
theorem c9_short_timeline_omits_phases :
    (fitToTimeline (adjustForCapacity (getEPICRoadmapTemplate Letter.E Letter.P)
      "moderate") "30 days").days_60 = none ∧
    (fitToTimeline (adjustForCapacity (getEPICRoadmapTemplate Letter.E Letter.P)
      "moderate") "30 days").first_quarter = none ∧
    (fitToTimeline (adjustForCapacity (getEPICRoadmapTemplate Letter.E Letter.P)
      "moderate") "30 days").second_quarter = none :=
  ⟨rfl, rfl, rfl⟩

/-- C9 as amended: `generateGTMRoadmap` of analyze.js always returns all four
phase keys with exactly 3 tasks each (within the claimed 3–5); the roadmap.js
builder returns all four phases, with 5 tasks each, only when the requested
timeline is none of `"30 days"`, `"60 days"`, `"first quarter"`, `"90 days"`
— shorter timelines drop the later phases. -/
theorem c9_roadmap_phase_counts (pf : String) (p s : Letter) (cap tl : String)
    (h1 : tl ≠ "30 days") (h2 : tl ≠ "60 days")
    (h3 : tl ≠ "first quarter") (h4 : tl ≠ "90 days") :
    ((generateGTMRoadmap pf).days_30.length = 3 ∧
     (generateGTMRoadmap pf).days_60.length = 3 ∧
     (generateGTMRoadmap pf).first_quarter.length = 3 ∧
     (generateGTMRoadmap pf).second_quarter.length = 3) ∧
    (Option.map List.length (fitToTimeline (adjustForCapacity
        (getEPICRoadmapTemplate p s) cap) tl).days_30 = some 5 ∧
     Option.map List.length (fitToTimeline (adjustForCapacity
        (getEPICRoadmapTemplate p s) cap) tl).days_60 = some 5 ∧
     Option.map List.length (fitToTimeline (adjustForCapacity
        (getEPICRoadmapTemplate p s) cap) tl).first_quarter = some 5 ∧
     Option.map List.length (fitToTimeline (adjustForCapacity
        (getEPICRoadmapTemplate p s) cap) tl).second_quarter = some 5) := by
  constructor
  · unfold generateGTMRoadmap
    split_ifs <;> exact ⟨rfl, rfl, rfl, rfl⟩
  · unfold fitToTimeline
    rw [if_neg h1, if_neg h2, if_neg (not_or.mpr ⟨h3, h4⟩)]
    unfold adjustForCapacity getEPICRoadmapTemplate
    cases p <;> cases s <;> exact ⟨rfl, rfl, rfl, rfl⟩

/-- C9 witness: the amended phase-count theorem at a concrete focus,
capacity and six-month timeline. -/
theorem c9_roadmap_phase_counts_witness :
    ((generateGTMRoadmap "Product-Led Growth Acceleration").days_30.length = 3 ∧
     (generateGTMRoadmap "Product-Led Growth Acceleration").days_60.length = 3 ∧
     (generateGTMRoadmap "Product-Led Growth Acceleration").first_quarter.length = 3 ∧
     (generateGTMRoadmap "Product-Led Growth Acceleration").second_quarter.length = 3) ∧
    (Option.map List.length (fitToTimeline (adjustForCapacity
        (getEPICRoadmapTemplate Letter.E Letter.P) "moderate")
        "6 months").days_30 = some 5 ∧
     Option.map List.length (fitToTimeline (adjustForCapacity
        (getEPICRoadmapTemplate Letter.E Letter.P) "moderate")
        "6 months").days_60 = some 5 ∧
     Option.map List.length (fitToTimeline (adjustForCapacity
        (getEPICRoadmapTemplate Letter.E Letter.P) "moderate")
        "6 months").first_quarter = some 5 ∧
     Option.map List.length (fitToTimeline (adjustForCapacity
        (getEPICRoadmapTemplate Letter.E Letter.P) "moderate")
        "6 months").second_quarter = some 5) :=
  c9_roadmap_phase_counts "Product-Led Growth Acceleration" Letter.E Letter.P
    "moderate" "6 months" (by decide) (by decide) (by decide) (by decide)

/-- C10 counterexample: with identical focus (primary E, secondary P), the
`"constrained"` tier yields exactly as many `days_30` tasks (5) as the
`"high"` tier — not fewer, contradicting the claimed scaling-down of task
counts. -/
theorem c10_capacity_counts_equal :
    (adjustForCapacity (getEPICRoadmapTemplate Letter.E Letter.P)
      "constrained").days_30.length = 5 ∧
    (adjustForCapacity (getEPICRoadmapTemplate Letter.E Letter.P)
      "high").days_30.length = 5 ∧
    ¬((adjustForCapacity (getEPICRoadmapTemplate Letter.E Letter.P)
        "constrained").days_30.length <
      (adjustForCapacity (getEPICRoadmapTemplate Letter.E Letter.P)
        "high").days_30.length) := by decide

/-- C10 as amended: the capacity tier never changes task counts —
`adjustForCapacity` is a per-phase map whose multiplier enters only the
deadline computation — so every tier gets the same 5 tasks per phase, of
which the secondary letter contributes exactly 1 (primary count + 1). -/
theorem c10_capacity_preserves_task_counts (r : Roadmap4) (cap : String)
    (p s : Letter) :
    ((adjustForCapacity r cap).days_30.length = r.days_30.length ∧
     (adjustForCapacity r cap).days_60.length = r.days_60.length ∧
     (adjustForCapacity r cap).first_quarter.length = r.first_quarter.length ∧
     (adjustForCapacity r cap).second_quarter.length = r.second_quarter.length) ∧
    ((getEPICRoadmapTemplate p s).days_30.length =
       (roadmapTemplates p).days_30.length + 1 ∧
     (getEPICRoadmapTemplate p s).days_60.length =
       (roadmapTemplates p).days_60.length + 1 ∧
     (getEPICRoadmapTemplate p s).first_quarter.length =
       (roadmapTemplates p).first_quarter.length + 1 ∧
     (getEPICRoadmapTemplate p s).second_quarter.length =
       (roadmapTemplates p).second_quarter.length + 1) ∧
    ((getEPICRoadmapTemplate p s).days_30.length = 5 ∧
     (getEPICRoadmapTemplate p s).days_60.length = 5 ∧
     (getEPICRoadmapTemplate p s).first_quarter.length = 5 ∧
     (getEPICRoadmapTemplate p s).second_quarter.length = 5) := by
  refine ⟨?_, ?_, ?_⟩
  · unfold adjustForCapacity
    simp [List.length_map]
  · cases p <;> cases s <;> exact ⟨rfl, rfl, rfl, rfl⟩
  · cases p <;> cases s <;> exact ⟨rfl, rfl, rfl, rfl⟩

end GTMAlpha
